import Mathlib

/-!
Shallow embedding of the aggregation core of `Enrollment Dashboards/app.py`
(a Streamlit dashboard over a CSV of enrollment candidates), together with
proofs about its derivations.

Modelling conventions:
* A pandas `DataFrame` of candidate records is a `List Row`; a missing value
  (`NaN`/`NaT`) in a nullable column is `none`.
* A parsed timestamp (`pd.Timestamp`) is modelled by `Date`, which carries the
  projections the script reads from it: the calendar year (`strftime "%Y"`),
  the calendar month as `Fin 12` (0 = January; `strftime "%B"`/`"%m"`), and
  the day count since the epoch (so that subtraction of two dates in whole
  days, `.dt.days`, is integer subtraction).  A real timestamp determines all
  three, so the record is a faithful view of the value.
* Counting a boolean mask (`len(df[mask])`) is `(List.filter … ).length`;
  Python float arithmetic on counts is modelled exactly over `ℚ` (the claims
  under study are about formulas and zero-guards, not rounding).
-/

namespace Enroll

/-- A parsed timestamp: the projections of a `pd.Timestamp` used by the app.
`month` is zero-based (0 = January, 11 = December); `epochDays` is the number
of days since the epoch, used for day-resolution subtraction. -/
structure Date where
  year : Int
  month : Fin 12
  epochDays : Int
deriving Repr, DecidableEq

/-- One candidate record (one row of `data/enrollment.csv` after
`load_data`): the columns the script reads.  Nullable columns are `Option`;
the four date columns have been coerced by `pd.to_datetime(…, errors="coerce")`,
so an unparsable cell is `none`. -/
structure Row where
  enteringYear : Int
  enteringGrade : Option String
  candidateStatus : Option String
  candidateDecision : Option String
  gender : Option String
  international : Option String
  financialAid : Option String
  inquiryDateSubmitted : Option Date
  applicationDateSubmitted : Option Date
  candidateDecisionDate : Option Date
  schoolDecisionDate : Option Date
deriving Repr, DecidableEq

/-- `filtered_df = df[df["Entering Year"].isin(selected_years)]` (app.py:38). -/
def filtered_df (df : List Row) (selectedYears : List Int) : List Row :=
  df.filter (fun r => selectedYears.contains r.enteringYear)

/-- `total_inquiries = len(filtered_df[filtered_df["Candidate Status"] == "Inquiry"])`
(app.py:47).  A `NaN` status compares unequal, as in pandas. -/
def total_inquiries (df : List Row) : Nat :=
  (df.filter (fun r => r.candidateStatus == some "Inquiry")).length

/-- The status list of app.py:48. -/
def applicationStatuses : List String :=
  ["Applicant", "File Complete", "Decision", "Contract"]

/-- `total_applications = len(filtered_df[filtered_df["Candidate Status"].isin([...])])`
(app.py:48); `isin` is false on `NaN`. -/
def total_applications (df : List Row) : Nat :=
  (df.filter (fun r =>
    match r.candidateStatus with
    | some s => applicationStatuses.contains s
    | none => false)).length

/-- `total_accepted = len(filtered_df[filtered_df["Candidate Decision"] == "Accepted"])`
(app.py:49). -/
def total_accepted (df : List Row) : Nat :=
  (df.filter (fun r => r.candidateDecision == some "Accepted")).length

/-- `total_contracts = len(filtered_df[filtered_df["Candidate Status"] == "Contract"])`
(app.py:50). -/
def total_contracts (df : List Row) : Nat :=
  (df.filter (fun r => r.candidateStatus == some "Contract")).length

/-- `acceptance_rate = (total_accepted / total_applications * 100) if total_applications > 0 else 0`
(app.py:84), with the Python float division modelled exactly over `ℚ`. -/
def acceptance_rate (df : List Row) : ℚ :=
  if total_applications df > 0 then
    (total_accepted df : ℚ) / (total_applications df : ℚ) * 100
  else 0

/-- `yield_rate = (total_contracts / total_accepted * 100) if total_accepted > 0 else 0`
(app.py:85). -/
def yield_rate (df : List Row) : ℚ :=
  if total_accepted df > 0 then
    (total_contracts df : ℚ) / (total_accepted df : ℚ) * 100
  else 0

/-- `stages = ["Inquiry", "Applicant", "File Complete", "Decision", "Contract"]`
(app.py:106). -/
def stages : List String :=
  ["Inquiry", "Applicant", "File Complete", "Decision", "Contract"]

/-- `stage_counts = [len(filtered_df[filtered_df["Candidate Status"] == stage]) for stage in stages]`
(app.py:107). -/
def stage_counts (df : List Row) : List Nat :=
  stages.map (fun stage =>
    (df.filter (fun r => r.candidateStatus == some stage)).length)

/-- A row with every nullable field empty, used to build small concrete tables. -/
def blankRow : Row :=
  { enteringYear := 0, enteringGrade := none, candidateStatus := none,
    candidateDecision := none, gender := none, international := none,
    financialAid := none, inquiryDateSubmitted := none,
    applicationDateSubmitted := none, candidateDecisionDate := none,
    schoolDecisionDate := none }

/-- The 3-row example table of the spec: (Year=2023, Status=Inquiry),
(Year=2023, Status=Contract, Decision=Accepted), (Year=2022, Status=Inquiry). -/
def exampleRows : List Row :=
  [ { blankRow with enteringYear := 2023, candidateStatus := some "Inquiry" },
    { blankRow with
        enteringYear := 2023
        candidateStatus := some "Contract"
        candidateDecision := some "Accepted" },
    { blankRow with enteringYear := 2022, candidateStatus := some "Inquiry" } ]

/-- Ascending lexicographic sort with duplicates removed: the order pandas
gives to the distinct non-null values of a string column (`groupby` and
`crosstab` sort their keys ascending). -/
def sortedDedup (l : List String) : List String :=
  l.dedup.insertionSort (fun a b => a ≤ b)

/-- Ascending sort with duplicates removed, for integer keys. -/
def sortedDedupInt (l : List Int) : List Int :=
  l.dedup.insertionSort (fun a b => a ≤ b)

/-- `pd.crosstab(filtered_df["Entering Grade"], filtered_df["Candidate Status"])`
(app.py:128) drops every record with a `NaN` in either key before tabulating;
`retained` is the surviving sub-table. -/
def retained (df : List Row) : List Row :=
  df.filter (fun r => r.enteringGrade.isSome && r.candidateStatus.isSome)

/-- The index labels of the crosstab: distinct grades among retained rows,
sorted ascending. -/
def observedGrades (df : List Row) : List String :=
  sortedDedup ((retained df).filterMap (fun r => r.enteringGrade))

/-- The column labels of the crosstab: distinct statuses among retained rows,
sorted ascending. -/
def observedStatuses (df : List Row) : List String :=
  sortedDedup ((retained df).filterMap (fun r => r.candidateStatus))

/-- `status_by_grade = pd.crosstab(filtered_df["Entering Grade"], filtered_df["Candidate Status"])`
(app.py:128-129): a dense count matrix, one row per observed grade, one cell
per observed status, zero when the pair never occurs. -/
def status_by_grade (df : List Row) : List (String × List (String × Nat)) :=
  (observedGrades df).map (fun g =>
    (g, (observedStatuses df).map (fun s =>
      (s, df.countP (fun r =>
        r.enteringGrade == some g && r.candidateStatus == some s)))))

/-- `value_counts()` on a column: one entry per distinct non-null value with
its frequency, ordered by descending count (pandas default). -/
def valueCounts (l : List String) : List (String × Nat) :=
  (l.dedup.map (fun v => (v, l.count v))).insertionSort (fun a b => b.2 ≤ a.2)

/-- The hardcoded grade display order, app.py:121-125. -/
def grade_order : List String :=
  ["Kindergarten", "Grade 1", "Grade 2", "Grade 3", "Grade 4",
   "Grade 5", "Grade 6", "Grade 7", "Grade 8", "Grade 9",
   "Grade 10", "Grade 11", "Grade 12"]

/-- `grade_inquiries` (app.py:141-148): `value_counts` of the grades of
Inquiry-status rows, then re-sorted by the categorical `grade_order` (a
stable sort; grades outside the canonical list become `NaN` categories and
sort to the end in their former order). -/
def grade_inquiries (df : List Row) : List (String × Nat) :=
  let counts := valueCounts
    ((df.filter (fun r => r.candidateStatus == some "Inquiry")).filterMap
      (fun r => r.enteringGrade))
  (grade_order.filterMap (fun g => (counts.lookup g).map (fun n => (g, n)))) ++
    counts.filter (fun p => !(grade_order.contains p.1))

/-- Calendar month names, index 0 = January: the image of `strftime("%B")`. -/
def monthNames : List String :=
  ["January", "February", "March", "April", "May", "June",
   "July", "August", "September", "October", "November", "December"]

/-- `strftime("%B")` of a parsed timestamp. -/
def monthName (m : Fin 12) : String :=
  monthNames.getD m.val ""

/-- `month_order`, the academic-year display order, app.py:202-205. -/
def month_order : List String :=
  ["August", "September", "October", "November", "December",
   "January", "February", "March", "April", "May", "June", "July"]

/-- The month names of the Inquiry-status rows that have a parsable
`Inquiry Date Submitted` (app.py:183-195: rows whose date is `NaT` get a
`NaN` month and drop out of `value_counts`).  The re-parse at app.py:188 is
the identity on an already-coerced datetime column. -/
def inquiryMonthNames (df : List Row) : List String :=
  (df.filter (fun r => r.candidateStatus == some "Inquiry")).filterMap
    (fun r => r.inquiryDateSubmitted.map (fun d => monthName d.month))

/-- `monthly_inquiries` (app.py:198-229): counts per month name, left-merged
onto the 12-month `month_order` frame with `NaN` filled by 0, then sorted by
the ordered categorical month descending (`ascending=False`, app.py:229) —
since each category occurs exactly once, that sort reverses `month_order`. -/
def monthly_inquiries (df : List Row) : List (String × Nat) :=
  (month_order.map (fun m => (m, (inquiryMonthNames df).count m))).reverse

/-- Two-digit decimal rendering of a month number, as in `strftime("%m")`. -/
def twoDigit (n : Nat) : String :=
  if n < 10 then "0" ++ toString n else toString n

/-- `strftime("%Y-%m")` of a parsed timestamp. -/
def formatYM (d : Date) : String :=
  toString d.year ++ "-" ++ twoDigit (d.month.val + 1)

/-- `monthly_apps` (app.py:294-297): group the filtered rows by the
`"%Y-%m"` rendering of `Application Date Submitted` (rows with `NaT` get a
`NaN` key and are dropped by `groupby`), count each group, sort by the month
string ascending. -/
def monthly_apps (df : List Row) : List (String × Nat) :=
  let keys := df.filterMap (fun r => r.applicationDateSubmitted.map formatYM)
  (sortedDedup keys).map (fun k => (k, keys.count k))

/-- The `Days_to_Decision` values of the rows of a given entering year that
have both `Application Date Submitted` and `School Decision Date`
(app.py:309-310); `NaT` in either column makes the difference `NaN`, which
`mean` skips. -/
def decisionDays (df : List Row) (y : Int) : List Int :=
  (df.filter (fun r => r.enteringYear == y)).filterMap (fun r =>
    match r.schoolDecisionDate, r.applicationDateSubmitted with
    | some d, some a => some (d.epochDays - a.epochDays)
    | _, _ => none)

/-- `avg_decision_time = filtered_df.groupby("Entering Year")["Days_to_Decision"].mean()`
(app.py:311): one output row per distinct `Entering Year` (ascending); the
mean skips `NaN` values, and a year whose values are all `NaN` keeps its row
with a `NaN` mean, modelled as `none`. -/
def avg_decision_time (df : List Row) : List (Int × Option ℚ) :=
  (sortedDedupInt (df.map (fun r => r.enteringYear))).map (fun y =>
    (y, if (decisionDays df y).isEmpty then none
        else some (((decisionDays df y).sum : ℚ) /
          ((decisionDays df y).length : ℚ))))

/-- `gender_dist = filtered_df["Gender"].value_counts()` (app.py:270). -/
def gender_dist (df : List Row) : List (String × Nat) :=
  valueCounts (df.filterMap (fun r => r.gender))

/-- `intl_dist = filtered_df["International"].value_counts()` (app.py:278). -/
def intl_dist (df : List Row) : List (String × Nat) :=
  valueCounts (df.filterMap (fun r => r.international))

/-- `fa_dist = filtered_df["Financial Aid"].value_counts()` (app.py:285). -/
def fa_dist (df : List Row) : List (String × Nat) :=
  valueCounts (df.filterMap (fun r => r.financialAid))

/-- The columns of the loaded table, in CSV order: every column the script
reads from `data/enrollment.csv`. -/
def baseColumns : List String :=
  ["Entering Year", "Entering Grade", "Candidate Status", "Candidate Decision",
   "Gender", "International", "Financial Aid", "Inquiry Date Submitted",
   "Application Date Submitted", "Candidate decision date",
   "School Decision Date"]

/-- The in-memory `filtered_df` object as a frame: its candidate rows plus
the two columns the Timeline tab may have added to it in place.  A column
that has not been assigned is `none`; an assigned column holds one (nullable)
cell per row.  In pandas, `filtered_df = df[mask]` is a fresh copy, so column
assignments to it never reach `df`; the model therefore keeps the source
`List Row` separate and only the frame gains columns. -/
structure FilteredFrame where
  rows : List Row
  appMonthCol : Option (List (Option String))
  daysCol : Option (List (Option Int))
deriving Repr, DecidableEq

/-- The frame produced by app.py:38: the year-filtered rows, no extra
columns yet. -/
def mkFiltered (df : List Row) (selectedYears : List Int) : FilteredFrame :=
  { rows := filtered_df df selectedYears, appMonthCol := none, daysCol := none }

/-- The column list of a frame, as `filtered_df.columns` would report it. -/
def frameColumns (f : FilteredFrame) : List String :=
  baseColumns ++
    (if f.appMonthCol.isSome then ["Application Month"] else []) ++
    (if f.daysCol.isSome then ["Days_to_Decision"] else [])

/-- The Timeline tab (app.py:294 and 309-310) assigns the two derived
columns into `filtered_df` in place: `"Application Month"` is
`strftime("%Y-%m")` of the application date (`NaN` when `NaT`) and
`"Days_to_Decision"` is the whole-day difference of the two decision dates
(`NaN` when either is missing). -/
def tab3_step (f : FilteredFrame) : FilteredFrame :=
  { rows := f.rows,
    appMonthCol := some (f.rows.map (fun r =>
      r.applicationDateSubmitted.map formatYM)),
    daysCol := some (f.rows.map (fun r =>
      match r.schoolDecisionDate, r.applicationDateSubmitted with
      | some d, some a => some (d.epochDays - a.epochDays)
      | _, _ => none)) }

/-- The data state of the script after running top to bottom: the loaded table
(never reassigned, and not written through by column assignments on the
copy `filtered_df`) and the filtered frame after the Timeline tab ran. -/
def runScript (df : List Row) (selectedYears : List Int) :
    List Row × FilteredFrame :=
  (df, tab3_step (mkFiltered df selectedYears))

/-- A parsed CSV text: the header row and the data records, each a list of
cell strings (an empty cell is the empty string, which pandas reads as
`NaN`). -/
structure Csv where
  header : List String
  records : List (List String)
deriving Repr, DecidableEq

/-- Position of a column name in a header, `none` when absent (a `KeyError`
in pandas). -/
def colIdx (header : List String) (name : String) : Option Nat :=
  header.findIdx? (fun c => c == name)

/-- The cell of a record under a named column, `none` when the column is
absent or the record is too short. -/
def cell (header : List String) (rec : List String) (name : String) :
    Option String :=
  (colIdx header name).bind (fun i => rec.get? i)

/-- `read_csv` turns an empty cell into `NaN`. -/
def blankToNone (s : String) : Option String :=
  if s = "" then none else some s

/-- `pd.to_datetime(value, errors="coerce")` on one cell: an empty cell is
`NaN` hence `NaT`; otherwise the external date parser decides, unparsable
text becoming `NaT` (`none`). -/
def coerceDate (parse : String → Option Date) (s : String) : Option Date :=
  if s = "" then none else parse s

/-- `date_columns` of app.py:18-19: the columns `load_data` itself accesses
(and therefore requires to be present). -/
def dateColumns : List String :=
  ["Inquiry Date Submitted", "Application Date Submitted",
   "Candidate decision date", "School Decision Date"]

/-- One record of the CSV decoded to a candidate row, with the four date
columns coerced by `parse` as in `load_data`.  Non-date columns keep their
cell values (`NaN` for an empty or absent cell); the year cell is read as an
integer, as `read_csv` types that column, through the external integer
parser `parseInt` (pandas reads the decimal rendering back; like the date
parser, that machinery is outside the script and passed as an argument). -/
def decodeRow (parseInt : String → Option Int)
    (parse : String → Option Date) (header : List String)
    (rec : List String) : Row :=
  { enteringYear := (((cell header rec "Entering Year").bind parseInt).getD 0),
    enteringGrade := (cell header rec "Entering Grade").bind blankToNone,
    candidateStatus := (cell header rec "Candidate Status").bind blankToNone,
    candidateDecision :=
      (cell header rec "Candidate Decision").bind blankToNone,
    gender := (cell header rec "Gender").bind blankToNone,
    international := (cell header rec "International").bind blankToNone,
    financialAid := (cell header rec "Financial Aid").bind blankToNone,
    inquiryDateSubmitted :=
      (cell header rec "Inquiry Date Submitted").bind (coerceDate parse),
    applicationDateSubmitted :=
      (cell header rec "Application Date Submitted").bind (coerceDate parse),
    candidateDecisionDate :=
      (cell header rec "Candidate decision date").bind (coerceDate parse),
    schoolDecisionDate :=
      (cell header rec "School Decision Date").bind (coerceDate parse) }

/-- `load_data` (app.py:12-23): read the CSV (absent file → error), then
coerce each of the four date columns (a missing date column → `KeyError` →
error); the error corresponds to the spec-level `DataSourceError`.  The
date parser is the external `pd.to_datetime` machinery, passed as an
argument. -/
def load_data (parseInt : String → Option Int)
    (parse : String → Option Date) (src : Option Csv) :
    Except String (List Row) :=
  match src with
  | none => Except.error "DataSourceError"
  | some csv =>
    if dateColumns.all (fun c => (colIdx csv.header c).isSome) then
      Except.ok (csv.records.map (decodeRow parseInt parse csv.header))
    else Except.error "DataSourceError"

/-- The CSV cell of a nullable string field: `to_csv` writes `NaN` as the
empty string. -/
def optCell (o : Option String) : String :=
  o.getD ""

/-- The CSV cell of a nullable date field, rendered by the external
formatter `fmt` (pandas writes a timestamp in ISO form and `NaT` as the
empty string). -/
def dateCell (fmt : Date → String) (o : Option Date) : String :=
  (o.map fmt).getD ""

/-- One candidate row serialized in `baseColumns` order, as
`to_csv(index=False)` writes it; `fmtInt` is the external decimal rendering
of the integer year column and `fmt` the external timestamp rendering. -/
def encodeRow (fmtInt : Int → String) (fmt : Date → String) (r : Row) :
    List String :=
  [fmtInt r.enteringYear, optCell r.enteringGrade,
   optCell r.candidateStatus, optCell r.candidateDecision,
   optCell r.gender, optCell r.international, optCell r.financialAid,
   dateCell fmt r.inquiryDateSubmitted,
   dateCell fmt r.applicationDateSubmitted,
   dateCell fmt r.candidateDecisionDate,
   dateCell fmt r.schoolDecisionDate]

/-- The cells that the assigned extra columns of a frame contribute to record `i`. -/
def extraCells (f : FilteredFrame) (i : Nat) :
    List String :=
  (match f.appMonthCol with
   | none => []
   | some l => [optCell (l.getD i none)]) ++
  (match f.daysCol with
   | none => []
   | some l => [((l.getD i none).map (fun d => toString d)).getD ""])

/-- `filtered_df.to_csv(index=False)` (app.py:325): header row of the
columns of the frame, one record per row, no index column. -/
def to_csv (fmtInt : Int → String) (fmt : Date → String)
    (f : FilteredFrame) : Csv :=
  { header := frameColumns f,
    records := f.rows.mapIdx (fun i r =>
      encodeRow fmtInt fmt r ++ extraCells f i) }

/-- A table whose acceptance rate exceeds 100: two accepted inquiries and a
single application. -/
def overAcceptRows : List Row :=
  [ { blankRow with
        candidateStatus := some "Inquiry"
        candidateDecision := some "Accepted" },
    { blankRow with
        candidateStatus := some "Inquiry"
        candidateDecision := some "Accepted" },
    { blankRow with candidateStatus := some "Applicant" } ]

/-- A table whose yield rate exceeds 100: two contracts and a single
accepted row. -/
def overYieldRows : List Row :=
  [ { blankRow with candidateStatus := some "Contract" },
    { blankRow with candidateStatus := some "Contract" },
    { blankRow with candidateDecision := some "Accepted" } ]

/-- A one-row table whose only row has an entering year but neither an
application date nor a school decision date. -/
def pairlessTable : List Row :=
  [ { blankRow with enteringYear := 2023 } ]

/-- A row carrying an entering grade but no candidate status. -/
def gradeOnlyRow : Row :=
  { blankRow with enteringGrade := some "Grade 1" }

/-- A row carrying both an entering grade and a candidate status. -/
def gradeStatusRow : Row :=
  { blankRow with
      enteringGrade := some "Grade 1"
      candidateStatus := some "Inquiry" }

/-- Whether `load_data` can succeed on a source: the file exists and every
date column it coerces is present in the header. -/
def loadOk (src : Option Csv) : Bool :=
  match src with
  | none => false
  | some csv => dateColumns.all (fun c => (colIdx csv.header c).isSome)

/-- The four date fields of a row, in `dateColumns` order. -/
def dateFields (r : Row) : List (Option Date) :=
  [r.inquiryDateSubmitted, r.applicationDateSubmitted,
   r.candidateDecisionDate, r.schoolDecisionDate]

/-- A concrete well-formed CSV with one record whose inquiry-date cell is
not a parsable date. -/
def csvEx : Csv :=
  { header := baseColumns,
    records := [["2023", "", "Inquiry", "", "", "", "", "notadate", "", "", ""]] }

/-- A date parser that rejects every string, standing in for a dataset all
of whose date cells are unparsable. -/
def parseNone : String → Option Date :=
  fun _ => none

/-- An integer parser that rejects every string (the year cells of `csvEx`
are never evaluated by the claims that use it). -/
def parseIntNone : String → Option Int :=
  fun _ => none

/-- The header of the exported CSV: the base columns plus the two columns
the Timeline tab added to `filtered_df` before the download button
serialized it (app.py:325 runs after app.py:294/309). -/
def exportHeader : List String :=
  baseColumns ++ ["Application Month", "Days_to_Decision"]

/-- A concrete timestamp (August 2023) for the round-trip witness. -/
def witDate : Date :=
  { year := 2023, month := 7, epochDays := 19600 }

/-- A row with a parsable inquiry date, for the round-trip witness. -/
def witRow : Row :=
  { blankRow with
      enteringYear := 2023
      candidateStatus := some "Inquiry"
      inquiryDateSubmitted := some witDate }

/-- One-row table for the round-trip witness. -/
def witTable : List Row :=
  [witRow]

/-- A concrete date formatter for the round-trip witness. -/
def fmtW : Date → String :=
  fun _ => "D"

/-- A concrete date parser inverting `fmtW` on `witDate`. -/
def parseW : String → Option Date :=
  fun s => if s = "D" then some witDate else none

/-- A concrete integer formatter for the round-trip witness. -/
def fmtIntW : Int → String :=
  fun _ => "Y"

/-- A concrete integer parser inverting `fmtIntW` on the witness year. -/
def parseIntW : String → Option Int :=
  fun s => if s = "Y" then some 2023 else none

/-- C1: the four rollup statistics count exactly the rows the spec says —
`total_inquiries` the rows with status Inquiry, `total_applications` the rows
with status among Applicant, File Complete, Decision, Contract,
`total_accepted` the rows with decision Accepted regardless of status,
`total_contracts` the rows with status Contract — and on the 3-row example
filtered to year 2023 they are 1, 1, 1, 1. -/
theorem C1_rollup_stats (df : List Row) :
    total_inquiries df = df.countP (fun r => r.candidateStatus == some "Inquiry")
    ∧ total_applications df = df.countP (fun r =>
        r.candidateStatus == some "Applicant" ||
        r.candidateStatus == some "File Complete" ||
        r.candidateStatus == some "Decision" ||
        r.candidateStatus == some "Contract")
    ∧ total_accepted df = df.countP (fun r => r.candidateDecision == some "Accepted")
    ∧ total_contracts df = df.countP (fun r => r.candidateStatus == some "Contract")
    ∧ total_inquiries (filtered_df exampleRows [2023]) = 1
    ∧ total_applications (filtered_df exampleRows [2023]) = 1
    ∧ total_accepted (filtered_df exampleRows [2023]) = 1
    ∧ total_contracts (filtered_df exampleRows [2023]) = 1 := by
  refine ⟨?_, ?_, ?_, ?_, by decide, by decide, by decide, by decide⟩
  · rw [total_inquiries, List.countP_eq_length_filter]
  · rw [total_applications, List.countP_eq_length_filter]
    congr 1
    apply List.filter_congr
    intro r _
    cases r.candidateStatus with
    | none => rfl
    | some s =>
      apply Bool.eq_iff_iff.mpr
      simp [applicationStatuses, Bool.or_assoc]
  · rw [total_accepted, List.countP_eq_length_filter]
  · rw [total_contracts, List.countP_eq_length_filter]

/-- C2: `acceptance_rate` is 0 when there are no applications and otherwise
exactly `total_accepted / total_applications * 100`; `yield_rate` is 0 when
there are no accepted rows and otherwise exactly
`total_contracts / total_accepted * 100`; the nonzero branch never divides
by zero and the rates are not clamped to [0, 100] (concrete tables reach
200). -/
theorem C2_rates (df : List Row) :
    (total_applications df = 0 → acceptance_rate df = 0)
    ∧ (0 < total_applications df →
        acceptance_rate df =
          (total_accepted df : ℚ) / (total_applications df : ℚ) * 100
        ∧ (total_applications df : ℚ) ≠ 0)
    ∧ (total_accepted df = 0 → yield_rate df = 0)
    ∧ (0 < total_accepted df →
        yield_rate df =
          (total_contracts df : ℚ) / (total_accepted df : ℚ) * 100
        ∧ (total_accepted df : ℚ) ≠ 0)
    ∧ acceptance_rate overAcceptRows = 200
    ∧ yield_rate overYieldRows = 200 := by
  have ha1 : total_accepted overAcceptRows = 2 := by decide
  have ha2 : total_applications overAcceptRows = 1 := by decide
  have hy1 : total_contracts overYieldRows = 2 := by decide
  have hy2 : total_accepted overYieldRows = 1 := by decide
  refine ⟨?_, ?_, ?_, ?_,
    by rw [acceptance_rate, ha1, ha2] ; norm_num,
    by rw [yield_rate, hy1, hy2] ; norm_num⟩
  · intro h
    simp [acceptance_rate, h]
  · intro h
    refine ⟨by simp [acceptance_rate, h], ?_⟩
    exact_mod_cast Nat.pos_iff_ne_zero.mp h
  · intro h
    simp [yield_rate, h]
  · intro h
    refine ⟨by simp [yield_rate, h], ?_⟩
    exact_mod_cast Nat.pos_iff_ne_zero.mp h

/-- Closed instance of `C2_rates` discharging its hypotheses on the 3-row
example filtered to 2023, where both denominators are 1. -/
theorem C2_rates_witness :
    acceptance_rate (filtered_df exampleRows [2023]) =
      (total_accepted (filtered_df exampleRows [2023]) : ℚ) /
        (total_applications (filtered_df exampleRows [2023]) : ℚ) * 100
    ∧ yield_rate (filtered_df exampleRows [2023]) =
      (total_contracts (filtered_df exampleRows [2023]) : ℚ) /
        (total_accepted (filtered_df exampleRows [2023]) : ℚ) * 100 :=
  ⟨((C2_rates (filtered_df exampleRows [2023])).2.1 (by decide)).1,
   ((C2_rates (filtered_df exampleRows [2023])).2.2.2.1 (by decide)).1⟩

/-- C6: filtering keeps exactly the rows whose `Entering Year` is among the
selected years; the empty selection gives the empty table; and every
aggregator derivation of the script maps the empty table to its empty or
zero result. -/
theorem C6_filter_empty (df : List Row) (years : List Int) :
    filtered_df df years = df.filter (fun r => decide (r.enteringYear ∈ years))
    ∧ (∀ r, r ∈ filtered_df df years ↔ r ∈ df ∧ r.enteringYear ∈ years)
    ∧ filtered_df df [] = []
    ∧ total_inquiries [] = 0 ∧ total_applications [] = 0
    ∧ total_accepted [] = 0 ∧ total_contracts [] = 0
    ∧ acceptance_rate [] = 0 ∧ yield_rate [] = 0
    ∧ stage_counts [] = [0, 0, 0, 0, 0]
    ∧ status_by_grade [] = []
    ∧ grade_inquiries [] = []
    ∧ monthly_inquiries [] = month_order.reverse.map (fun m => (m, 0))
    ∧ monthly_apps [] = []
    ∧ avg_decision_time [] = []
    ∧ gender_dist [] = [] ∧ intl_dist [] = [] ∧ fa_dist [] = [] := by
  refine ⟨?_, ?_, by simp [filtered_df], by decide, by decide, by decide,
    by decide, by decide, by decide, by decide, by decide, by decide,
    by decide, by decide, by decide, by decide, by decide, by decide⟩
  · apply List.filter_congr
    intro r _
    simp [List.elem_iff]
  · intro r
    simp [filtered_df, List.mem_filter, List.elem_iff]

theorem length_filter_cons (p : Row → Bool) (r : Row) (t : List Row) :
    ((r :: t).filter p).length = (if p r then 1 else 0) + (t.filter p).length := by
  rw [List.filter_cons]
  split <;> simp [Nat.add_comm]

theorem total_inquiries_cons (r : Row) (t : List Row) :
    total_inquiries (r :: t) =
      (if r.candidateStatus == some "Inquiry" then 1 else 0) +
        total_inquiries t :=
  length_filter_cons _ r t

theorem total_applications_cons (r : Row) (t : List Row) :
    total_applications (r :: t) =
      (if (match r.candidateStatus with
           | some s => applicationStatuses.contains s
           | none => false) then 1 else 0) + total_applications t :=
  length_filter_cons _ r t

theorem stage_counts_sum_cons (r : Row) (t : List Row) :
    (stage_counts (r :: t)).sum =
      ((if r.candidateStatus == some "Inquiry" then 1 else 0) +
       (if r.candidateStatus == some "Applicant" then 1 else 0) +
       (if r.candidateStatus == some "File Complete" then 1 else 0) +
       (if r.candidateStatus == some "Decision" then 1 else 0) +
       (if r.candidateStatus == some "Contract" then 1 else 0)) +
      (stage_counts t).sum := by
  simp [stage_counts, stages, length_filter_cons]
  omega

/-- Per-row indicator identity: being Inquiry or being in the application
statuses contributes the same count as the five per-stage indicators. -/
theorem statusIndicator (o : Option String) :
    ((if o == some "Inquiry" then 1 else 0) +
     (if (match o with
          | some s => applicationStatuses.contains s
          | none => false) then 1 else 0)) =
    ((if o == some "Inquiry" then 1 else 0) +
     (if o == some "Applicant" then 1 else 0) +
     (if o == some "File Complete" then 1 else 0) +
     (if o == some "Decision" then 1 else 0) +
     (if o == some "Contract" then 1 else 0)) := by
  cases o with
  | none => decide
  | some s =>
    by_cases h1 : s = "Inquiry"
    · subst h1; decide
    by_cases h2 : s = "Applicant"
    · subst h2; decide
    by_cases h3 : s = "File Complete"
    · subst h3; decide
    by_cases h4 : s = "Decision"
    · subst h4; decide
    by_cases h5 : s = "Contract"
    · subst h5; decide
    simp [applicationStatuses, h1, h2, h3, h4, h5]

/-- A row at a stage is at exactly that one stage. -/
theorem status_stage_countP_le_one (o : Option String) :
    stages.countP (fun st => o == some st) ≤ 1 := by
  cases o with
  | none => decide
  | some s =>
    by_cases h1 : s = "Inquiry"
    · subst h1; decide
    by_cases h2 : s = "Applicant"
    · subst h2; decide
    by_cases h3 : s = "File Complete"
    · subst h3; decide
    by_cases h4 : s = "Decision"
    · subst h4; decide
    by_cases h5 : s = "Contract"
    · subst h5; decide
    simp [stages, List.countP_cons, h1, h2, h3, h4, h5]

/-- C5: each row matches at most one of the five stage filters, a status
outside the five stages is counted by no stage filter (dropping such rows
leaves `stage_counts` unchanged), and `total_inquiries + total_applications`
equals the sum of the five per-stage counts, so no row is double-counted. -/
theorem C5_stage_partition (df : List Row) :
    (∀ r ∈ df, stages.countP (fun st => r.candidateStatus == some st) ≤ 1)
    ∧ total_inquiries df + total_applications df = (stage_counts df).sum
    ∧ stage_counts (df.filter (fun r =>
        stages.any (fun st => r.candidateStatus == some st))) = stage_counts df := by
  refine ⟨fun r _ => status_stage_countP_le_one r.candidateStatus, ?_, ?_⟩
  · induction df with
    | nil => decide
    | cons r t ih =>
      rw [total_inquiries_cons, total_applications_cons, stage_counts_sum_cons]
      have := statusIndicator r.candidateStatus
      omega
  · rw [stage_counts, stage_counts]
    apply List.map_eq_map_iff.mpr
    intro st hst
    congr 1
    rw [List.filter_filter]
    apply List.filter_congr
    intro r _
    cases h : (r.candidateStatus == some st) with
    | false => simp [h]
    | true =>
      have hk : (stages.any (fun st => r.candidateStatus == some st)) = true := by
        simp only [List.any_eq_true]
        exact ⟨st, hst, h⟩
      simp [h, hk]

theorem sum_map_count_cons (ms : List String) (a : String) (t : List String) :
    (ms.map (fun m => (a :: t).count m)).sum =
      (ms.map (fun m => t.count m)).sum + ms.count a := by
  induction ms with
  | nil => simp
  | cons b ms ih =>
    simp only [List.map_cons, List.sum_cons]
    rw [ih]
    simp only [List.count_cons]
    by_cases h : a = b
    · subst h
      omega
    · have h1 : (a == b) = false := beq_eq_false_iff_ne.mpr h
      have h2 : (b == a) = false := beq_eq_false_iff_ne.mpr (Ne.symm h)
      simp only [h1, h2]
      omega

/-- Summing per-key counts over a duplicate-free key list covering every
element of `l` recovers the length of `l`. -/
theorem sum_map_count_eq_length (ms : List String) (l : List String)
    (hnd : ms.Nodup) (hsub : ∀ x ∈ l, x ∈ ms) :
    (ms.map (fun m => l.count m)).sum = l.length := by
  induction l with
  | nil => simp
  | cons a t ih =>
    have ha : a ∈ ms := hsub a (by simp)
    have ht : ∀ x ∈ t, x ∈ ms := fun x hx => hsub x (by simp [hx])
    rw [sum_map_count_cons, ih ht, List.count_eq_one_of_mem hnd ha]
    simp

/-- Every month name produced by `strftime("%B")` is one of the twelve
canonical names of the academic-year order. -/
theorem monthName_mem_month_order (m : Fin 12) : monthName m ∈ month_order := by
  fin_cases m <;> decide

/-- C3 fails as stated: the output of the derivation is not in the academic-year
order August .. July — on the example table filtered to 2023 (as on any
table) the months come out July first, because of the descending sort at
app.py:229. -/
theorem C3_counterexample :
    (monthly_inquiries (filtered_df exampleRows [2023])).map Prod.fst ≠
      month_order := by
  decide

/-- C3 amended: `monthly_inquiries` always has exactly 12 entries, one per
canonical month name, but in the reverse of the academic-year order (July
down to August); the count of each month is the number of Inquiry-status rows
whose parsable `Inquiry Date Submitted` falls in that month, 0 when there is
none; and the 12 counts sum to the number of Inquiry-status rows with a
parsable inquiry date. -/
theorem C3_monthly_inquiries (df : List Row) :
    (monthly_inquiries df).length = 12
    ∧ (monthly_inquiries df).map Prod.fst = month_order.reverse
    ∧ (∀ m c, (m, c) ∈ monthly_inquiries df →
        c = (inquiryMonthNames df).count m)
    ∧ ((monthly_inquiries df).map Prod.snd).sum =
        (inquiryMonthNames df).length := by
  refine ⟨by simp [monthly_inquiries, month_order], ?_, ?_, ?_⟩
  · rfl
  · intro m c hmc
    rw [monthly_inquiries, List.mem_reverse, List.mem_map] at hmc
    obtain ⟨m2, _, heq⟩ := hmc
    injection heq with h1 h2
    subst h1
    exact h2.symm
  · rw [monthly_inquiries, List.map_reverse, List.sum_reverse, List.map_map]
    have hc : (Prod.snd ∘ fun m => (m, (inquiryMonthNames df).count m)) =
        (fun m => (inquiryMonthNames df).count m) := rfl
    rw [hc]
    apply sum_map_count_eq_length
    · decide
    · intro x hx
      simp only [inquiryMonthNames] at hx
      obtain ⟨r, _, hr⟩ := List.mem_filterMap.mp hx
      obtain ⟨d, _, hxd⟩ := Option.map_eq_some'.mp hr
      rw [← hxd]
      exact monthName_mem_month_order _

/-- Closed instance of `C5_stage_partition` discharging its membership
hypothesis: the Grade 1 Inquiry row is counted at a single stage. -/
theorem C5_stage_partition_witness :
    stages.countP (fun st => gradeStatusRow.candidateStatus == some st) ≤ 1 :=
  (C5_stage_partition [gradeStatusRow]).1 gradeStatusRow (by decide)

/-- Closed instance of `C3_monthly_inquiries` discharging its membership
hypothesis: July appears (first) with count 0 on the example table. -/
theorem C3_monthly_inquiries_witness :
    (("July", 0) ∈ monthly_inquiries (filtered_df exampleRows [2023]))
    ∧ 0 = (inquiryMonthNames (filtered_df exampleRows [2023])).count "July" :=
  ⟨by decide,
   (C3_monthly_inquiries (filtered_df exampleRows [2023])).2.2.1 "July" 0
     (by decide)⟩

theorem map_fst_pair {α β : Type} (l : List α) (f : α → β) :
    (l.map (fun y => (y, f y))).map Prod.fst = l := by
  rw [List.map_map]
  induction l with
  | nil => rfl
  | cons a t ih => simpa using ih

/-- C4 fails as stated: on a one-row table whose row has no valid
(application date, school decision date) pair, the year 2023 is not omitted —
it appears in the output with an undefined (`NaN`) average. -/
theorem C4_counterexample :
    avg_decision_time pairlessTable = [(2023, none)]
    ∧ decisionDays pairlessTable 2023 = [] := by
  decide

/-- C4 amended: the average-decision-latency derivation produces one output
row per distinct `Entering Year` of the filtered table (ascending), whether
or not the year has a valid date pair; a year with at least one valid pair
gets exactly the mean of its whole-day differences (negative values
included, unguarded), and a year with no valid pair still appears, with an
undefined (`NaN`, here `none`) average instead of being omitted. -/
theorem C4_avg_decision_time (df : List Row) :
    (avg_decision_time df).map Prod.fst =
      sortedDedupInt (df.map (fun r => r.enteringYear))
    ∧ (∀ y, y ∈ (avg_decision_time df).map Prod.fst ↔
        ∃ r ∈ df, r.enteringYear = y)
    ∧ (∀ y v, (y, v) ∈ avg_decision_time df →
        (decisionDays df y = [] → v = none)
        ∧ (decisionDays df y ≠ [] →
            v = some (((decisionDays df y).sum : ℚ) /
              ((decisionDays df y).length : ℚ)))) := by
  have hfst : (avg_decision_time df).map Prod.fst =
      sortedDedupInt (df.map (fun r => r.enteringYear)) := map_fst_pair _ _
  refine ⟨hfst, ?_, ?_⟩
  · intro y
    rw [hfst]
    simp [sortedDedupInt, List.mem_insertionSort, List.mem_dedup, List.mem_map]
  · intro y v hyv
    simp only [avg_decision_time, List.mem_map] at hyv
    obtain ⟨y2, hy2, heq⟩ := hyv
    injection heq with h1 h2
    subst h1
    constructor
    · intro hnil
      rw [← h2]
      simp [hnil]
    · intro hne
      have hemp : (decisionDays df y2).isEmpty = false := by
        cases hd : decisionDays df y2 with
        | nil => exact absurd hd hne
        | cons a t => rfl
      rw [← h2]
      simp [hemp]

/-- Closed instance of `C4_avg_decision_time` discharging its hypotheses on
the concrete pairless table: (2023, NaN) is in the output and its value is
`none` because the year has no valid pair. -/
theorem C4_avg_decision_time_witness :
    ((2023 : Int), (none : Option ℚ)) ∈ avg_decision_time pairlessTable
    ∧ (none : Option ℚ) = none :=
  ⟨by decide,
   ((C4_avg_decision_time pairlessTable).2.2 2023 none (by decide)).1
     (by decide)⟩

/-- C7 fails as stated: the Timeline tab does not leave the filtered table
unchanged — after it runs, the filtered frame has two more columns than it
had when it was produced by the year filter. -/
theorem C7_counterexample :
    frameColumns (tab3_step (mkFiltered exampleRows [2023])) ≠
      frameColumns (mkFiltered exampleRows [2023]) := by
  decide

/-- C7 amended: filtering never mutates the source table, and the values of
the original columns of the filtered table are never changed; but the
Timeline tab mutates the filtered table in place, adding the two columns
`Application Month` and `Days_to_Decision` to it. -/
theorem C7_frame_effects (df : List Row) (years : List Int) :
    (runScript df years).1 = df
    ∧ (tab3_step (mkFiltered df years)).rows = filtered_df df years
    ∧ frameColumns (mkFiltered df years) = baseColumns
    ∧ frameColumns (tab3_step (mkFiltered df years)) =
        baseColumns ++ ["Application Month", "Days_to_Decision"] := by
  refine ⟨rfl, rfl, by simp [frameColumns, mkFiltered], ?_⟩
  simp [frameColumns, tab3_step, mkFiltered]

/-- C10 fails as stated: a grade that occurs only on rows with a missing
status is not a row label of the crosstab, although it is present in a
filtered row — `pd.crosstab` drops a record when either key is missing, so
such grades contribute no label at all. -/
theorem C10_counterexample :
    (status_by_grade [gradeOnlyRow]).map Prod.fst = []
    ∧ ∃ r ∈ [gradeOnlyRow], r.enteringGrade = some "Grade 1" :=
  ⟨by decide, ⟨gradeOnlyRow, by decide, by decide⟩⟩

/-- C10 amended: the crosstab is dense over the labels observed among rows
that carry both a grade and a status: its row labels are exactly the grades
occurring in at least one filtered row that also has a status, its column
labels exactly the statuses occurring in at least one filtered row that also
has a grade, every such (grade, status) cell is present with an explicit
count (0 when no row has the pair), and rows missing either value are
excluded from the tabulation. -/
theorem C10_status_by_grade (df : List Row) :
    (status_by_grade df).map Prod.fst = observedGrades df
    ∧ (∀ g, g ∈ observedGrades df ↔
        ∃ r ∈ df, r.enteringGrade = some g ∧ r.candidateStatus.isSome = true)
    ∧ (∀ s, s ∈ observedStatuses df ↔
        ∃ r ∈ df, r.candidateStatus = some s ∧ r.enteringGrade.isSome = true)
    ∧ (∀ g row, (g, row) ∈ status_by_grade df →
        row.map Prod.fst = observedStatuses df
        ∧ ∀ s c, (s, c) ∈ row →
            c = df.countP (fun r =>
              r.enteringGrade == some g && r.candidateStatus == some s)) := by
  refine ⟨map_fst_pair _ _, ?_, ?_, ?_⟩
  · intro g
    simp only [observedGrades, sortedDedup, List.mem_insertionSort,
      List.mem_dedup, List.mem_filterMap, retained, List.mem_filter,
      Bool.and_eq_true]
    constructor
    · rintro ⟨r, ⟨hrdf, _, hs⟩, hg⟩
      exact ⟨r, hrdf, hg, hs⟩
    · rintro ⟨r, hrdf, hg, hs⟩
      refine ⟨r, ⟨hrdf, ?_, hs⟩, hg⟩
      rw [hg]
      rfl
  · intro s
    simp only [observedStatuses, sortedDedup, List.mem_insertionSort,
      List.mem_dedup, List.mem_filterMap, retained, List.mem_filter,
      Bool.and_eq_true]
    constructor
    · rintro ⟨r, ⟨hrdf, hgr, _⟩, hs⟩
      exact ⟨r, hrdf, hs, hgr⟩
    · rintro ⟨r, hrdf, hs, hgr⟩
      refine ⟨r, ⟨hrdf, hgr, ?_⟩, hs⟩
      rw [hs]
      rfl
  · intro g row hgrow
    simp only [status_by_grade, List.mem_map] at hgrow
    obtain ⟨g2, hg2, heq⟩ := hgrow
    injection heq with e1 e2
    subst e1
    refine ⟨?_, ?_⟩
    · rw [← e2]
      exact map_fst_pair _ _
    · intro s c hsc
      rw [← e2] at hsc
      simp only [List.mem_map] at hsc
      obtain ⟨s2, hs2, heq2⟩ := hsc
      injection heq2 with f1 f2
      subst f1
      exact f2.symm

/-- Closed instance of `C10_status_by_grade` discharging its hypotheses on a
one-row table with both keys present: the Grade 1 row holds the Inquiry cell
with count 1. -/
theorem C10_status_by_grade_witness :
    ("Grade 1", [("Inquiry", 1)]) ∈ status_by_grade [gradeStatusRow]
    ∧ 1 = List.countP (fun r =>
        r.enteringGrade == some "Grade 1" &&
          r.candidateStatus == some "Inquiry") [gradeStatusRow] :=
  ⟨by decide,
   ((C10_status_by_grade [gradeStatusRow]).2.2.2 "Grade 1" [("Inquiry", 1)]
      (by decide)).2 "Inquiry" 1 (by decide)⟩

/-- C8: loading fails (with the spec-level `DataSourceError`) exactly when
the file is absent or a required (date) column is missing from the header;
success does not depend on the date parser at all, so unparsable date cells
never fail the load; a successful load keeps every record, and each of the
four date fields of a decoded row is the coercion of its cell — `none` when
the cell is empty, absent or unparsable. -/
theorem C8_load_data (parseInt parseInt2 : String → Option Int)
    (parse parse2 : String → Option Date) (src : Option Csv) :
    ((load_data parseInt parse src).isOk = loadOk src)
    ∧ (loadOk src = false →
        load_data parseInt parse src = Except.error "DataSourceError")
    ∧ ((load_data parseInt parse src).isOk =
        (load_data parseInt2 parse2 src).isOk)
    ∧ (∀ csv, src = some csv → loadOk src = true →
        load_data parseInt parse src =
          Except.ok (csv.records.map (decodeRow parseInt parse csv.header))
        ∧ (csv.records.map (decodeRow parseInt parse csv.header)).length =
            csv.records.length
        ∧ ∀ rec ∈ csv.records,
            dateFields (decodeRow parseInt parse csv.header rec) =
              dateColumns.map (fun c =>
                (cell csv.header rec c).bind (coerceDate parse))) := by
  have key : ∀ (pI : String → Option Int) (p : String → Option Date),
      (load_data pI p src).isOk = loadOk src := by
    intro pI p
    cases src with
    | none => rfl
    | some csv =>
      by_cases h : (dateColumns.all (fun c => (colIdx csv.header c).isSome)) = true
      · simp [load_data, loadOk, h, Except.isOk, Except.toBool]
      · rw [Bool.not_eq_true] at h
        simp [load_data, loadOk, h, Except.isOk, Except.toBool]
  refine ⟨key parseInt parse, ?_,
    (key parseInt parse).trans (key parseInt2 parse2).symm, ?_⟩
  · intro hfail
    cases src with
    | none => rfl
    | some csv =>
      rw [loadOk] at hfail
      simp [load_data, hfail]
  · rintro csv rfl hok
    rw [loadOk] at hok
    refine ⟨by simp [load_data, hok], by simp, ?_⟩
    intro rec _
    rfl

/-- Closed instance of `C8_load_data` discharging its hypotheses on a
concrete CSV (all columns present, one record, unparsable inquiry date) and
parsers that reject everything: the load still succeeds with the record
intact and all four dates missing. -/
theorem C8_load_data_witness :
    load_data parseIntNone parseNone (some csvEx) =
      Except.ok (csvEx.records.map (decodeRow parseIntNone parseNone csvEx.header)) :=
  (((C8_load_data parseIntNone parseIntNone parseNone parseNone
    (some csvEx)).2.2.2 csvEx rfl (by decide))).1

theorem blankToNone_optCell (o : Option String) (h : o ≠ some "") :
    blankToNone (optCell o) = o := by
  cases o with
  | none => rfl
  | some v =>
    have hv : v ≠ "" := fun e => h (by rw [e])
    simp [optCell, blankToNone, hv]

theorem coerceDate_dateCell (parse : String → Option Date)
    (fmt : Date → String) (o : Option Date)
    (h : ∀ d, o = some d → fmt d ≠ "" ∧ parse (fmt d) = some d) :
    coerceDate parse (dateCell fmt o) = o := by
  cases o with
  | none => rfl
  | some d =>
    obtain ⟨h1, h2⟩ := h d rfl
    simp [dateCell, coerceDate, h1, h2]

/-- Decoding a row serialized under the export header (base columns plus the
two Timeline columns) restores the row exactly, whatever trailing extra
cells the record carries, provided the scalar codecs invert: the decimal
year cell parses back, no string field holds the empty string (which
serializes like a missing value), and the date formatter is inverted by the
date parser. -/
theorem decode_encode (parseInt : String → Option Int)
    (parse : String → Option Date) (fmtInt : Int → String)
    (fmt : Date → String) (r : Row) (extra : List String)
    (hy : parseInt (fmtInt r.enteringYear) = some r.enteringYear)
    (hs : ∀ o ∈ [r.enteringGrade, r.candidateStatus, r.candidateDecision,
        r.gender, r.international, r.financialAid], o ≠ some "")
    (hd : ∀ o ∈ [r.inquiryDateSubmitted, r.applicationDateSubmitted,
        r.candidateDecisionDate, r.schoolDecisionDate],
        ∀ d, o = some d → fmt d ≠ "" ∧ parse (fmt d) = some d) :
    decodeRow parseInt parse exportHeader (encodeRow fmtInt fmt r ++ extra) = r := by
  obtain ⟨y, og, os, od, gg, ii, ff, d1, d2, d3, d4⟩ := r
  show Row.mk
      ((parseInt (fmtInt y)).getD 0)
      (blankToNone (optCell og)) (blankToNone (optCell os))
      (blankToNone (optCell od)) (blankToNone (optCell gg))
      (blankToNone (optCell ii)) (blankToNone (optCell ff))
      (coerceDate parse (dateCell fmt d1))
      (coerceDate parse (dateCell fmt d2))
      (coerceDate parse (dateCell fmt d3))
      (coerceDate parse (dateCell fmt d4)) =
    Row.mk y og os od gg ii ff d1 d2 d3 d4
  simp only [Row.mk.injEq]
  refine ⟨by rw [hy] ; rfl,
    blankToNone_optCell og (hs _ (by simp)),
    blankToNone_optCell os (hs _ (by simp)),
    blankToNone_optCell od (hs _ (by simp)),
    blankToNone_optCell gg (hs _ (by simp)),
    blankToNone_optCell ii (hs _ (by simp)),
    blankToNone_optCell ff (hs _ (by simp)),
    coerceDate_dateCell parse fmt d1 (hd _ (by simp)),
    coerceDate_dateCell parse fmt d2 (hd _ (by simp)),
    coerceDate_dateCell parse fmt d3 (hd _ (by simp)),
    coerceDate_dateCell parse fmt d4 (hd _ (by simp))⟩

/-- Decoding the serialized records of a row list (each with arbitrary
index-dependent trailing cells, as the two Timeline columns are) restores
the list. -/
theorem map_decode_mapIdx (parseInt : String → Option Int)
    (parse : String → Option Date) (fmtInt : Int → String)
    (fmt : Date → String) (rows : List Row) (g : Nat → List String)
    (hy : ∀ r ∈ rows, parseInt (fmtInt r.enteringYear) = some r.enteringYear)
    (hs : ∀ r ∈ rows, ∀ o ∈ [r.enteringGrade, r.candidateStatus,
        r.candidateDecision, r.gender, r.international, r.financialAid],
        o ≠ some "")
    (hd : ∀ r ∈ rows, ∀ o ∈ [r.inquiryDateSubmitted,
        r.applicationDateSubmitted, r.candidateDecisionDate,
        r.schoolDecisionDate],
        ∀ d, o = some d → fmt d ≠ "" ∧ parse (fmt d) = some d) :
    (List.mapIdx (fun i r => encodeRow fmtInt fmt r ++ g i) rows).map
      (decodeRow parseInt parse exportHeader) = rows := by
  induction rows generalizing g with
  | nil => rfl
  | cons a t ih =>
    rw [List.mapIdx_cons, List.map_cons]
    rw [decode_encode parseInt parse fmtInt fmt a (g 0) (hy a (by simp))
      (hs a (by simp)) (hd a (by simp))]
    congr 1
    exact ih (fun i => g (i + 1))
      (fun r hr => hy r (by simp [hr]))
      (fun r hr => hs r (by simp [hr]))
      (fun r hr => hd r (by simp [hr]))

/-- C9: exporting the filtered table as CSV (as the download button does,
after the Timeline tab added its two columns) and reloading it through the
loader restores exactly the filtered rows — same row count and field values,
dates round-tripping through the formatter/parser pair — provided the
external scalar codecs invert on the values present: the year cell parses
back to the year, no string field is the empty string (which serializes
like a missing value), and the date parser inverts the date formatter. -/
theorem C9_roundtrip (df : List Row) (years : List Int)
    (fmtInt : Int → String) (fmt : Date → String)
    (parseInt : String → Option Int) (parse : String → Option Date)
    (hy : ∀ r ∈ filtered_df df years,
        parseInt (fmtInt r.enteringYear) = some r.enteringYear)
    (hs : ∀ r ∈ filtered_df df years, ∀ o ∈ [r.enteringGrade,
        r.candidateStatus, r.candidateDecision, r.gender, r.international,
        r.financialAid], o ≠ some "")
    (hd : ∀ r ∈ filtered_df df years, ∀ o ∈ [r.inquiryDateSubmitted,
        r.applicationDateSubmitted, r.candidateDecisionDate,
        r.schoolDecisionDate],
        ∀ d, o = some d → fmt d ≠ "" ∧ parse (fmt d) = some d) :
    load_data parseInt parse
        (some (to_csv fmtInt fmt (tab3_step (mkFiltered df years)))) =
      Except.ok (filtered_df df years) := by
  have hrec : ((to_csv fmtInt fmt (tab3_step (mkFiltered df years))).records).map
      (decodeRow parseInt parse
        (to_csv fmtInt fmt (tab3_step (mkFiltered df years))).header) =
      filtered_df df years := by
    show (List.mapIdx (fun i r => encodeRow fmtInt fmt r ++
        extraCells (tab3_step (mkFiltered df years)) i)
        (filtered_df df years)).map (decodeRow parseInt parse exportHeader) =
      filtered_df df years
    exact map_decode_mapIdx parseInt parse fmtInt fmt
      (filtered_df df years) _ hy hs hd
  have hstep : load_data parseInt parse
      (some (to_csv fmtInt fmt (tab3_step (mkFiltered df years)))) =
      Except.ok
        (((to_csv fmtInt fmt (tab3_step (mkFiltered df years))).records).map
          (decodeRow parseInt parse
            (to_csv fmtInt fmt (tab3_step (mkFiltered df years))).header)) := rfl
  rw [hstep, hrec]

/-- Closed instance of `C9_roundtrip` discharging its hypotheses on a
concrete one-row table with an August 2023 inquiry date and concrete
formatter/parser pairs that invert each other on the values present. -/
theorem C9_roundtrip_witness :
    load_data parseIntW parseW
        (some (to_csv fmtIntW fmtW (tab3_step (mkFiltered witTable [2023])))) =
      Except.ok (filtered_df witTable [2023]) := by
  apply C9_roundtrip
  · decide
  · decide
  · intro r hr
    fin_cases hr
    intro o ho d hde
    fin_cases ho
    · injection hde with h
      subst h
      exact ⟨by decide, by decide⟩
    · exact Option.noConfusion hde
    · exact Option.noConfusion hde
    · exact Option.noConfusion hde

end Enroll
